import Mathlib

/-!
Verification of `security/middleware.py` (django-security).

Each Django middleware unit is embedded as a pure Lean function.  Settings
are passed explicitly (an absent setting is `none`, mirroring the
`AttributeError` / `hasattr` probes in the source).  Response header maps are
modelled as functions `String → Option String`; `response[h] = v` becomes a
functional update.  Per-request side effects (logout, session mutation) are
made explicit by returning the updated request/session state.
-/

namespace DjangoSecurity

/-- Response header map: header name to value, `none` when unset. -/
abbrev Headers := String → Option String

def emptyHeaders : Headers := fun _ => none

/-- Assignment `response[k] = v` on a Django response: overwrite one header. -/
def setHeader (h : Headers) (k v : String) : Headers :=
  fun k2 => if k2 = k then some v else h k2

/-- Python `s.lstrip('/')`: drop every leading `'/'`. -/
def lstrip (s : String) : String :=
  String.mk (s.data.dropWhile (fun c => c = '/'))

/-! ### LoginRequiredMiddleware (lines 603-635) -/

/-- The two identity flags the unit reads from `request.user`. -/
structure DjUser where
  is_authenticated : Bool
  is_active : Bool
deriving DecidableEq

/-- Lines 624-625: `if request.user.is_authenticated() and not
request.user.is_active: logout(request)`.  After Django's `logout` the
request carries an anonymous (unauthenticated) user. -/
def DjUser.afterInactiveLogout (u : DjUser) : DjUser :=
  if u.is_authenticated && !u.is_active then
    { u with is_authenticated := false }
  else u

/-- The request fields `LoginRequiredMiddleware.process_request` reads. -/
structure LoginRequest where
  user : DjUser
  path_info : String
  path : String
  is_ajax : Bool

/-- A terminal response from the request phase. -/
inductive TerminalResponse
  | http (body : String) (status : Nat) (mimetype : String)
  | redirect (url : String)
deriving DecidableEq

/-- Configuration of the login-required unit: compiled `LOGIN_EXEMPT_URLS`
patterns (a compiled regex is abstracted as its match function on the
stripped path) and `LOGIN_URL`. -/
structure LoginRequiredCfg where
  exempt_urls : List (String → Bool)
  login_url : String

/-- One escaped character of `json.dumps` output for a string value. -/
def jsonEscapeChar (c : Char) : String :=
  if c = '"' then "\\\"" else if c = '\\' then "\\\\" else String.mk [c]

def jsonEscape (s : String) : String :=
  String.join (s.data.map jsonEscapeChar)

/-- Line 630-631: `json.dumps({"login_url": settings.LOGIN_URL})`. -/
def jsonDumpsLoginUrl (url : String) : String :=
  "\x7b\"login_url\": \"" ++ jsonEscape url ++ "\"\x7d"

/-- Lines 621-635: `LoginRequiredMiddleware.process_request`.  Returns the
(possibly logged-out) request together with the optional terminal
response (`None` in Python becomes `none`). -/
def LoginRequiredCfg.process_request (m : LoginRequiredCfg) (req : LoginRequest) :
    LoginRequest × Option TerminalResponse :=
  let req2 : LoginRequest := { req with user := req.user.afterInactiveLogout }
  if !req2.user.is_authenticated then
    if !(m.exempt_urls.any (fun re => re (lstrip req2.path_info))) then
      if req2.is_ajax then
        (req2, some (.http (jsonDumpsLoginUrl m.login_url) 401 "application/json"))
      else
        (req2, some (.redirect (m.login_url ++ "?next=" ++ req2.path)))
    else (req2, none)
  else (req2, none)

/-! ### SessionExpiryPolicyMiddleware (lines 502-572) -/

/-- The two reserved session keys, `none` when the key is absent.  Instants
are integer microsecond timestamps; `datetime` subtraction followed by
`diff.days * 86400 + diff.seconds` is floor division by 10^6 (timedelta
normalisation keeps `0 ≤ seconds < 86400`, `0 ≤ microseconds < 10^6`). -/
structure DjSession where
  starttime : Option Int
  lastactivity : Option Int
deriving DecidableEq

/-- Settings `SESSION_COOKIE_AGE` / `SESSION_INACTIVITY_TIMEOUT` (seconds),
after the class-level defaulting on lines 521-528. -/
structure SessionExpiryCfg where
  SESSION_COOKIE_AGE : Int
  SESSION_INACTIVITY_TIMEOUT : Int
deriving DecidableEq

/-- Value `diff.days * 86400 + diff.seconds` of a `timedelta` of `d`
microseconds: floor division, discarding the sub-second part. -/
def secondsOf (d : Int) : Int := Int.fdiv d 1000000

/-- Which of the three branches of `process_request` ran (the source logs a
distinct message in each: "New session ... started", "... is inactive",
"... is still active"). -/
inductive SessionBranch
  | stampedFresh
  | cleared
  | updatedActivity
deriving DecidableEq

/-- Lines 532-572: `SessionExpiryPolicyMiddleware.process_request` at time
`now` (microseconds).  The guard on lines 543-544 is
`START_TIME_KEY not in session or LAST_ACTIVITY_KEY not in session`:
when either marker is missing, both are stamped to `now`. -/
def SessionExpiryCfg.process_request (cfg : SessionExpiryCfg) (now : Int)
    (s : DjSession) : DjSession × SessionBranch :=
  match s.starttime, s.lastactivity with
  | some start_time, some last_activity_time =>
    let session_too_old := secondsOf (now - start_time) > cfg.SESSION_COOKIE_AGE
    let session_inactive :=
      secondsOf (now - last_activity_time) > cfg.SESSION_INACTIVITY_TIMEOUT
    if session_too_old || session_inactive then
      (⟨none, none⟩, .cleared)          -- request.session.clear()
    else
      (⟨some start_time, some now⟩, .updatedActivity)
  | _, _ => (⟨some now, some now⟩, .stampedFresh)

/-! ### XFrameOptionsMiddleware (lines 223-256) -/

/-- Outcome of `XFrameOptionsMiddleware.__init__`: either installed with a
fixed option string, or crashed on the `assert` (an `AssertionError` is not
an `AttributeError`, so the `except AttributeError` clause does not catch
it and `__init__` raises). -/
inductive XFOInit
  | installed (option : String)
  | assertionError
deriving DecidableEq

/-- Python `str.lower` on one ASCII character. -/
def lowerChar (c : Char) : Char :=
  if 'A' ≤ c ∧ c ≤ 'Z' then Char.ofNat (c.toNat + 32) else c

/-- Python `s.lower()` (ASCII case folding). -/
def pyLower (s : String) : String := String.mk (s.data.map lowerChar)

/-- Lines 243-249.  `none` models an unset `X_FRAME_OPTIONS`
(`AttributeError` from `settings.X_FRAME_OPTIONS`, caught → default). -/
def xframe_init (x_frame_options : Option String) : XFOInit :=
  match x_frame_options with
  | none => .installed "sameorigin"
  | some s =>
    let o := pyLower s
    if o = "sameorigin" || o = "deny" || "allow-from:".data.isPrefixOf o.data then
      .installed o
    else
      .assertionError

/-- Lines 251-256: `response['X-Frame-Options'] = self.option`. -/
def xframe_process_response (option : String) (response : Headers) : Headers :=
  setHeader response "X-Frame-Options" option

/-! ### ContentSecurityPolicyMiddleware (lines 263-438) -/

def CSP_LOC_TYPES : List String :=
  ["default-src", "script-src", "style-src", "img-src", "connect-src",
   "font-src", "object-src", "media-src", "frame-src"]

def CSP_LOCATIONS : List String := ["self", "none", "unsave-eval", "unsafe-inline"]

def CSP_SANDBOX_ARGS : List String :=
  ["", "allow-forms", "allow-same-origin", "allow-scripts", "allow-top-navigation"]

/-- A `CSP_DICT` value: a list of tokens, or (for `report-uri`) a raw
string. -/
inductive CSPValue
  | locs (l : List String)
  | raw (s : String)

/-- How `_csp_builder` can abort: `raise
django.core.exceptions.MiddlewareNotUsed` on an unrecognised directive or
sandbox token, or a Python `TypeError` from `csp_string += v` when the
`report-uri` value is not a string. -/
inductive CSPError
  | middlewareNotUsed
  | typeError
deriving DecidableEq

/-- Iterating a `CSP_DICT` value in Python: a list yields its elements, a
string yields its characters. -/
def CSPValue.tokens : CSPValue → List String
  | .locs l => l
  | .raw s => s.data.map (fun c => String.mk [c])

/-- Lines 353-388: `_csp_builder`, over the dict items in order.  Location
directives emit `" {k} "` then each token (quoted when it is a known CSP
keyword location) then `';'`; the `sandbox` and `report-uri` branches
append only the tokens / the raw value and `';'`. -/
def csp_builder : List (String × CSPValue) → Except CSPError String
  | [] => .ok ""
  | (k, v) :: rest =>
    if CSP_LOC_TYPES.contains k then
      let piece := " " ++ k ++ " " ++
        String.join (v.tokens.map (fun loc =>
          if CSP_LOCATIONS.contains loc then " '" ++ loc ++ "' "
          else " " ++ loc ++ " ")) ++ ";"
      (csp_builder rest).map (fun r => piece ++ r)
    else if k = "sandbox" then
      if v.tokens.all (fun opt => CSP_SANDBOX_ARGS.contains opt) then
        let piece := String.join (v.tokens.map (fun opt => " " ++ opt ++ " ")) ++ ";"
        (csp_builder rest).map (fun r => piece ++ r)
      else .error .middlewareNotUsed
    else if k = "report-uri" then
      match v with
      | .raw s => (csp_builder rest).map (fun r => s ++ ";" ++ r)
      | .locs _ => .error .typeError
    else .error .middlewareNotUsed

/-- Whether `needle` occurs as a contiguous substring of `hay`. -/
def listContainsSub (needle : List Char) : List Char → Bool
  | [] => needle.isPrefixOf []
  | c :: cs => needle.isPrefixOf (c :: cs) || listContainsSub needle cs

/-! ### NoConfidentialCachingMiddleware (lines 134-195) -/

/-- Resolved `NO_CONFIDENTIAL_CACHING` configuration (lines 164-171);
compiled regexes abstracted as match functions. -/
structure NoConfCachingCfg where
  whitelist : Bool
  whitelist_url_regexes : List (String → Bool)
  blacklist : Bool
  blacklist_url_regexes : List (String → Bool)

/-- Lines 183-185: the nested `match(path, match_list)` helper. -/
def ncMatch (path : String) (match_list : List (String → Bool)) : Bool :=
  match_list.any (fun re => re (lstrip path))

/-- Lines 177-195: `NoConfidentialCachingMiddleware.process_response`. -/
def NoConfCachingCfg.process_response (m : NoConfCachingCfg) (path : String)
    (response : Headers) : Headers :=
  let cache_control := "no-cache, no-store, private"
  let r1 :=
    if m.whitelist && !(ncMatch path m.whitelist_url_regexes) then
      setHeader response "Cache-Control" cache_control
    else response
  if m.blacklist && ncMatch path m.blacklist_url_regexes then
    setHeader r1 "Cache-Control" cache_control
  else r1

/-! ### StrictTransportSecurityMiddleware (lines 440-468) -/

/-- State fixed by `StrictTransportSecurityMiddleware.__init__`. -/
structure STSState where
  max_age : Int
  subdomains : Bool
deriving DecidableEq

/-- Lines 452-458: one `try` block reads both settings; if either read
raises `AttributeError` (setting absent, modelled `none`), the handler
resets BOTH fields to their defaults. -/
def sts_init (sts_max_age : Option Int) (sts_include_subdomains : Option Bool) :
    STSState :=
  match sts_max_age, sts_include_subdomains with
  | some a, some s => ⟨a, s⟩
  | _, _ => ⟨3600 * 24 * 365, true⟩

/-- Lines 459-461: the header value computed once at construction. -/
def sts_value (st : STSState) : String :=
  let v := "max-age=" ++ toString st.max_age
  if st.subdomains then v ++ " ; includeSubDomains" else v

/-- Lines 463-468: every response gets the same precomputed value. -/
def sts_process_response (st : STSState) (response : Headers) : Headers :=
  setHeader response "Strict-Transport-Security" (sts_value st)

/-! ### P3PPolicyMiddleware (lines 470-499) -/

/-- Outcome of `P3PPolicyMiddleware.__init__`.  When `P3P_COMPACT_POLICY`
is absent the unit raises `MiddlewareNotUsed` (excluded).  When it is
present but `P3P_POLICY_URL` is absent, the `except AttributeError`
handler executes `long.info(...)`: `long` (the Python builtin type) has no
attribute `info`, so a fresh `AttributeError` is raised inside the handler
and propagates out of `__init__` — the unit never installs and the default
URL is never used. -/
inductive P3PInit
  | installed (policy_url : String) (policy : String)
  | middlewareNotUsed
  | attributeError
deriving DecidableEq

/-- Lines 483-492. -/
def p3p_init (p3p_compact_policy : Option String) (p3p_policy_url : Option String) :
    P3PInit :=
  match p3p_compact_policy with
  | none => .middlewareNotUsed
  | some _policy =>
    match p3p_policy_url with
    | some url => .installed url _policy
    | none => .attributeError

/-- Lines 494-499: `'policyref="{0}" CP="{1}"'.format(policy_url, policy)`. -/
def p3p_process_response (policy_url policy : String) (response : Headers) : Headers :=
  setHeader response "P3P"
    ("policyref=\"" ++ policy_url ++ "\" CP=\"" ++ policy ++ "\"")

/-! ### Helper lemmas -/

theorem secondsOf_eq (d : Int) : secondsOf d = d / 1000000 :=
  Int.fdiv_eq_ediv d (by norm_num)

theorem setHeader_same (h : Headers) (k v : String) : setHeader h k v k = some v := by
  simp [setHeader]

/-! ### Claim theorems -/

/-- C1: the login-required unit's request-phase hook returns a terminal
response if and only if the identity is unauthenticated after the forced
logout of an authenticated-but-inactive identity, and the request path
with leading slashes stripped matches no pattern of the exemption list. -/
theorem loginRequired_shortCircuit_iff (m : LoginRequiredCfg) (req : LoginRequest) :
    ((m.process_request req).2).isSome = true ↔
      ((req.user.afterInactiveLogout).is_authenticated = false ∧
        (m.exempt_urls.any (fun re => re (lstrip req.path_info))) = false) := by
  unfold LoginRequiredCfg.process_request
  cases h1 : (req.user.afterInactiveLogout).is_authenticated <;>
    cases h2 : m.exempt_urls.any (fun re => re (lstrip req.path_info)) <;>
      cases h3 : req.is_ajax <;> simp [h1, h2, h3]

theorem loginRequired_shortCircuit_iff_witness :
    ((LoginRequiredCfg.process_request
        ⟨[fun s => s = "open"], "/login"⟩
        ⟨⟨false, true⟩, "/secret", "/secret", false⟩).2).isSome = true :=
  (loginRequired_shortCircuit_iff ⟨[fun s => s = "open"], "/login"⟩
      ⟨⟨false, true⟩, "/secret", "/secret", false⟩).mpr (by constructor <;> decide)

/-- C2: on an unauthenticated request to a non-exempt path, the terminal
response is a 401 JSON body containing the configured `LOGIN_URL` for an
AJAX request, and a redirect to `LOGIN_URL?next=<original path>`
otherwise. -/
theorem loginRequired_terminal_shape (m : LoginRequiredCfg) (req : LoginRequest)
    (hauth : (req.user.afterInactiveLogout).is_authenticated = false)
    (hexempt : (m.exempt_urls.any (fun re => re (lstrip req.path_info))) = false) :
    (m.process_request req).2 =
      some (if req.is_ajax then
              .http (jsonDumpsLoginUrl m.login_url) 401 "application/json"
            else
              .redirect (m.login_url ++ "?next=" ++ req.path)) := by
  unfold LoginRequiredCfg.process_request
  cases h3 : req.is_ajax <;> simp [hauth, hexempt, h3]

theorem loginRequired_terminal_shape_witness :
    (LoginRequiredCfg.process_request
        ⟨[fun s => s = "open"], "/login"⟩
        ⟨⟨true, false⟩, "/secret", "/secret", true⟩).2 =
      some (.http "\x7b\"login_url\": \"/login\"\x7d" 401 "application/json") := by
  have h := loginRequired_terminal_shape ⟨[fun s => s = "open"], "/login"⟩
      ⟨⟨true, false⟩, "/secret", "/secret", true⟩ (by decide) (by decide)
  simpa [jsonDumpsLoginUrl, jsonEscape, jsonEscapeChar] using h

/-- C3: session age and idle time are computed in whole seconds with the
sub-second part truncated, and compared strictly: at age exactly
`SESSION_COOKIE_AGE` seconds (even with up to 999999 leftover
microseconds) the session is preserved and the activity marker updated,
while at `SESSION_COOKIE_AGE + 1` seconds it is cleared; likewise for idle
time against `SESSION_INACTIVITY_TIMEOUT`. -/
theorem sessionExpiry_boundary (cfg : SessionExpiryCfg) (st la μ : Int)
    (h0 : 0 ≤ μ) (h1 : μ < 1000000) :
    (secondsOf (st + cfg.SESSION_COOKIE_AGE * 1000000 + μ - la) ≤
        cfg.SESSION_INACTIVITY_TIMEOUT →
      cfg.process_request (st + cfg.SESSION_COOKIE_AGE * 1000000 + μ)
          ⟨some st, some la⟩ =
        (⟨some st, some (st + cfg.SESSION_COOKIE_AGE * 1000000 + μ)⟩,
          .updatedActivity)) ∧
    (cfg.process_request (st + (cfg.SESSION_COOKIE_AGE + 1) * 1000000)
        ⟨some st, some la⟩ = (⟨none, none⟩, .cleared)) ∧
    (secondsOf (la + cfg.SESSION_INACTIVITY_TIMEOUT * 1000000 + μ - st) ≤
        cfg.SESSION_COOKIE_AGE →
      cfg.process_request (la + cfg.SESSION_INACTIVITY_TIMEOUT * 1000000 + μ)
          ⟨some st, some la⟩ =
        (⟨some st, some (la + cfg.SESSION_INACTIVITY_TIMEOUT * 1000000 + μ)⟩,
          .updatedActivity)) ∧
    (cfg.process_request (la + (cfg.SESSION_INACTIVITY_TIMEOUT + 1) * 1000000)
        ⟨some st, some la⟩ = (⟨none, none⟩, .cleared)) := by
  refine ⟨fun hidle => ?_, ?_, fun hage => ?_, ?_⟩
  · simp only [SessionExpiryCfg.process_request, secondsOf_eq] at *
    rw [if_neg]
    simp only [Bool.or_eq_true, decide_eq_true_eq, not_or, gt_iff_lt, not_lt]
    omega
  · simp only [SessionExpiryCfg.process_request, secondsOf_eq]
    rw [if_pos]
    simp only [Bool.or_eq_true, decide_eq_true_eq, gt_iff_lt]
    omega
  · simp only [SessionExpiryCfg.process_request, secondsOf_eq] at *
    rw [if_neg]
    simp only [Bool.or_eq_true, decide_eq_true_eq, not_or, gt_iff_lt, not_lt]
    omega
  · simp only [SessionExpiryCfg.process_request, secondsOf_eq]
    rw [if_pos]
    simp only [Bool.or_eq_true, decide_eq_true_eq, gt_iff_lt]
    omega

theorem sessionExpiry_boundary_witness :
    SessionExpiryCfg.process_request ⟨86400, 1800⟩ 86400000000
        ⟨some 0, some 86400000000⟩ =
      (⟨some 0, some 86400000000⟩, .updatedActivity) := by
  have h := (sessionExpiry_boundary ⟨86400, 1800⟩ 0 86400000000 0
      (by decide) (by decide)).1 (by decide)
  simpa using h

/-- C4 counterexample: the source (lines 543-544) stamps both markers
whenever EITHER marker is missing, not only when both are missing: with
the start-time marker present (`some 0`) and only the last-activity marker
absent, the fresh branch runs and the start-time marker is restamped to
the current time. -/
theorem sessionExpiry_fresh_cex :
    SessionExpiryCfg.process_request ⟨86400, 1800⟩ 5 ⟨some 0, none⟩ =
        (⟨some 5, some 5⟩, .stampedFresh) ∧
      ¬((some (0 : Int) = (none : Option Int)) ∧
        ((none : Option Int) = (none : Option Int))) := by
  constructor
  · rfl
  · intro h
    exact Option.noConfusion h.1

/-- C4 (amended): the session-expiry unit treats the session as fresh —
stamping both markers to the current time and taking no further action —
exactly when the session lacks the start-time marker or lacks the
last-activity marker (i.e. at least one of the two is missing). -/
theorem sessionExpiry_fresh_iff (cfg : SessionExpiryCfg) (now : Int) (s : DjSession) :
    ((cfg.process_request now s).2 = .stampedFresh ↔
      (s.starttime = none ∨ s.lastactivity = none)) ∧
    ((s.starttime = none ∨ s.lastactivity = none) →
      (cfg.process_request now s).1 = ⟨some now, some now⟩) := by
  rcases s with ⟨st, la⟩
  rcases st with _ | st <;> rcases la with _ | la <;>
    simp only [SessionExpiryCfg.process_request] <;> simp
  split <;> simp

theorem sessionExpiry_fresh_iff_witness :
    (SessionExpiryCfg.process_request ⟨86400, 1800⟩ 7 ⟨none, none⟩).1 =
      ⟨some 7, some 7⟩ :=
  (sessionExpiry_fresh_iff ⟨86400, 1800⟩ 7 ⟨none, none⟩).2 (Or.inl rfl)

/-- C5: two consecutive requests on the same session, each within both the
max-age and inactivity limits and with a non-decreasing clock, never clear
the session, and the last-activity marker after each request equals the
current time, hence is greater than or equal to its previous value. -/
theorem sessionExpiry_consecutive (cfg : SessionExpiryCfg) (st la0 t1 t2 : Int)
    (hmono1 : la0 ≤ t1) (hmono2 : t1 ≤ t2)
    (hage1 : secondsOf (t1 - st) ≤ cfg.SESSION_COOKIE_AGE)
    (hidle1 : secondsOf (t1 - la0) ≤ cfg.SESSION_INACTIVITY_TIMEOUT)
    (hage2 : secondsOf (t2 - st) ≤ cfg.SESSION_COOKIE_AGE)
    (hidle2 : secondsOf (t2 - t1) ≤ cfg.SESSION_INACTIVITY_TIMEOUT) :
    cfg.process_request t1 ⟨some st, some la0⟩ =
        (⟨some st, some t1⟩, .updatedActivity) ∧
      cfg.process_request t2 ⟨some st, some t1⟩ =
        (⟨some st, some t2⟩, .updatedActivity) ∧
      la0 ≤ t1 ∧ t1 ≤ t2 := by
  refine ⟨?_, ?_, hmono1, hmono2⟩
  · simp only [SessionExpiryCfg.process_request, secondsOf_eq] at *
    rw [if_neg]
    simp only [Bool.or_eq_true, decide_eq_true_eq, not_or, gt_iff_lt, not_lt]
    omega
  · simp only [SessionExpiryCfg.process_request, secondsOf_eq] at *
    rw [if_neg]
    simp only [Bool.or_eq_true, decide_eq_true_eq, not_or, gt_iff_lt, not_lt]
    omega

theorem sessionExpiry_consecutive_witness :
    SessionExpiryCfg.process_request ⟨86400, 1800⟩ 1000000
        ⟨some 0, some 0⟩ = (⟨some 0, some 1000000⟩, .updatedActivity) ∧
      SessionExpiryCfg.process_request ⟨86400, 1800⟩ 2000000
        ⟨some 0, some 1000000⟩ = (⟨some 0, some 2000000⟩, .updatedActivity) ∧
      (0 : Int) ≤ 1000000 ∧ (1000000 : Int) ≤ 2000000 :=
  sessionExpiry_consecutive ⟨86400, 1800⟩ 0 0 1000000 2000000
    (by decide) (by decide) (by decide) (by decide) (by decide) (by decide)

/-- C6 counterexample: with `X_FRAME_OPTIONS = "invalid"` the `assert` on
lines 246-247 fails; the resulting `AssertionError` is not caught by the
`except AttributeError` clause, so the unit's constructor raises instead
of falling back to `sameorigin` — no `sameorigin` header is ever
emitted for an invalid configuration. -/
theorem xframe_invalid_cex :
    xframe_init (some "invalid") = .assertionError ∧
      XFOInit.assertionError ≠ XFOInit.installed "sameorigin" := by
  refine ⟨rfl, fun h => XFOInit.noConfusion h⟩

/-- C6 (amended): an unset configuration yields `sameorigin`; a configured
mode whose lowercasing lies in \x7bdeny, sameorigin, allow-from:<url>\x7d
installs the unit and the response-phase hook emits exactly that
lowercased token; any other configured string makes the constructor fail
its assertion, so no header (in particular not `sameorigin`) is emitted. -/
theorem xframe_emits (v : String) (resp : Headers) :
    xframe_init none = .installed "sameorigin" ∧
      ((pyLower v = "sameorigin" ∨ pyLower v = "deny" ∨
          "allow-from:".data.isPrefixOf (pyLower v).data = true) →
        xframe_init (some v) = .installed (pyLower v) ∧
          xframe_process_response (pyLower v) resp "X-Frame-Options" =
            some (pyLower v)) ∧
      (¬(pyLower v = "sameorigin" ∨ pyLower v = "deny" ∨
          "allow-from:".data.isPrefixOf (pyLower v).data = true) →
        xframe_init (some v) = .assertionError) := by
  refine ⟨rfl, fun h => ⟨?_, ?_⟩, fun h => ?_⟩
  · simp only [xframe_init]
    rw [if_pos]
    rcases h with h | h | h
    · rw [h]; decide
    · rw [h]; decide
    · simp [h]
  · exact setHeader_same resp _ _
  · simp only [xframe_init]
    rw [if_neg]
    simp only [Bool.or_eq_true, decide_eq_true_eq, not_or] at h ⊢
    tauto

theorem xframe_emits_witness :
    xframe_init (some "DENY") = .installed "deny" ∧
      xframe_process_response "deny" emptyHeaders "X-Frame-Options" =
        some "deny" :=
  (xframe_emits "DENY" emptyHeaders).2.1 (by right; left; decide)

/-- C7: evaluation of `_csp_builder` at the failing input
`CSP_DICT = \x7b'sandbox': ['allow-forms']\x7d`.  The sandbox branch
(lines 369-377) appends only the sandbox tokens and `';'`, never the
directive name itself, so the built string does not contain `sandbox`,
contradicting the claim that every directive name appears followed by its
tokens.  The exclusion half of the claim does hold: an unrecognised
directive name or sandbox token aborts the builder with
`MiddlewareNotUsed` (so no CSP headers are emitted), and location-type
directives do appear by name, token list and terminating `';'`. -/
theorem csp_builder_sandbox_eval :
    csp_builder [("sandbox", CSPValue.locs ["allow-forms"])] =
        Except.ok " allow-forms ;" ∧
      listContainsSub "sandbox".data (" allow-forms ;").data = false ∧
      csp_builder [("img-src", CSPValue.locs ["self"])] =
        Except.ok " img-src  'self' ;" ∧
      csp_builder [("bogus-src", CSPValue.locs ["self"])] =
        Except.error CSPError.middlewareNotUsed ∧
      csp_builder [("sandbox", CSPValue.locs ["bogus"])] =
        Except.error CSPError.middlewareNotUsed := by
  refine ⟨rfl, by decide, rfl, rfl, rfl⟩

/-- C8: the cache-control whitelist and blacklist checks are independent:
whenever blacklist mode is active and the (slash-stripped) path matches a
blacklist pattern, the response leaves with
`Cache-Control: no-cache, no-store, private`, whatever the whitelist
configuration did — including a whitelist that is active and matched. -/
theorem noConfCaching_blacklist_wins (m : NoConfCachingCfg) (path : String)
    (resp : Headers)
    (hb : m.blacklist = true)
    (hm : ncMatch path m.blacklist_url_regexes = true) :
    m.process_response path resp "Cache-Control" =
      some "no-cache, no-store, private" := by
  unfold NoConfCachingCfg.process_response
  rw [if_pos (by rw [hb, hm]; rfl)]
  exact setHeader_same _ _ _

theorem noConfCaching_blacklist_wins_witness :
    NoConfCachingCfg.process_response
        ⟨true, [fun s => s = "page"], true, [fun s => s = "page"]⟩
        "/page" emptyHeaders "Cache-Control" =
      some "no-cache, no-store, private" :=
  noConfCaching_blacklist_wins
    ⟨true, [fun s => s = "page"], true, [fun s => s = "page"]⟩
    "/page" emptyHeaders rfl (by decide)

/-- C9: evaluation of `P3PPolicyMiddleware.__init__` at the failing input
(`P3P_COMPACT_POLICY` configured, `P3P_POLICY_URL` absent).  The
`except AttributeError` handler on line 492 calls `long.info(...)`;
`long` has no attribute `info`, so a new `AttributeError` escapes the
handler and `__init__` raises: the unit never installs and the documented
default URL `/w3c/p3p.xml` is never used.  With no compact policy
configured the unit is excluded via `MiddlewareNotUsed`, and with both
settings configured it installs and emits the formatted `P3P` header. -/
theorem p3p_default_url_eval :
    p3p_init (some "CAO DSP COR") none = .attributeError ∧
      p3p_init none none = .middlewareNotUsed ∧
      p3p_init (some "CAO DSP COR") (some "/w3c/p3p.xml") =
        .installed "/w3c/p3p.xml" "CAO DSP COR" ∧
      p3p_process_response "/w3c/p3p.xml" "CAO DSP COR" emptyHeaders "P3P" =
        some "policyref=\"/w3c/p3p.xml\" CP=\"CAO DSP COR\"" := by
  refine ⟨rfl, rfl, rfl, by decide⟩

/-- C10: the two HSTS settings are read in a single `try` block, so if
either `STS_MAX_AGE` or `STS_INCLUDE_SUBDOMAINS` is absent, both fields
fall back to their defaults (max-age `3600*24*365 = 31536000` seconds,
subdomains included) and the configured value of the present setting is
ignored; the `Strict-Transport-Security` value is computed once at
construction and every response receives that same value. -/
theorem sts_joint_fallback (a : Int) (b : Bool) (resp : Headers) :
    sts_init (some a) none = ⟨3600 * 24 * 365, true⟩ ∧
      sts_init none (some b) = ⟨3600 * 24 * 365, true⟩ ∧
      sts_init none none = ⟨3600 * 24 * 365, true⟩ ∧
      sts_value ⟨3600 * 24 * 365, true⟩ = "max-age=31536000 ; includeSubDomains" ∧
      (∀ st : STSState,
        sts_process_response st resp "Strict-Transport-Security" =
          some (sts_value st)) := by
  refine ⟨rfl, ?_, rfl, by decide, fun st => setHeader_same _ _ _⟩
  cases b <;> rfl

end DjangoSecurity
